import Mathlib

/-!
# Fluid `clamp()` generator: a model of `script.js`

The script reads four numeric fields and a property selector, fits the line
through `(minWidth, minValue)` and `(maxWidth, maxValue)`, prints a CSS
declaration and restyles a preview element.

Modelling choices.

* JavaScript numbers are modelled as exact rationals, so every statement below
  is a statement of exact arithmetic: overflow, underflow, `NaN`, infinities and
  binary rounding of IEEE doubles are outside the model.
* A template string is modelled by the record of its holes (`Length`, `ValStr`,
  `Decl`) together with a `text` function that spells the template out, so
  that both the printed characters and the CSS meaning of what is printed can be
  talked about.
* The DOM is explicit state: the text of the output element and the preview
  target element (class name, content, inline style), which may be absent.
-/

namespace ClampFluide

/-! ## Application state -/

/-- The unit mode `state.unit`: `'px'` or `'rem'`. -/
inductive UnitMode where
  | px
  | rem
  deriving DecidableEq, Repr

/-- The constant `state.baseRem`. -/
def baseRem : ℚ := 16

/-- The unit as it is spelled inside the template strings. -/
def UnitMode.label : UnitMode → String
  | .px => "px"
  | .rem => "rem"

/-! ## Numbers and their text -/

/-- The function `round(num)`: `Math.round(num * 10000) / 10000`, where
`Math.round(y)` is `floor(y + 0.5)` (ties go towards `+∞`). -/
def round (num : ℚ) : ℚ := (⌊num * 10000 + 1 / 2⌋ : ℤ) / 10000

/-- Digits after the decimal point of `r / d` (with `r < d`), stopping when the
expansion ends or after `fuel` digits. -/
def fracDigits : ℕ → ℕ → ℕ → List Char
  | 0, _, _ => []
  | fuel + 1, r, d =>
    if r = 0 then [] else Nat.digitChar (r * 10 / d % 10) :: fracDigits fuel (r * 10 % d) d

/-- The text `${x}` of a number in positional decimal notation: an optional
minus sign, the integer part, and the fractional digits when there are any.
For zero and for a number of magnitude between `1e-6` and `1e21` with a short
terminating decimal expansion this is what JavaScript prints (outside that range
JavaScript switches to exponent notation); longer expansions are cut after 20
digits. -/
def numStr (x : ℚ) : String :=
  (if x < 0 then "-" else "") ++ Nat.repr (x.num.natAbs / x.den) ++
    (if x.num.natAbs % x.den = 0 then ""
     else "." ++ String.mk (fracDigits 20 (x.num.natAbs % x.den) x.den))

/-! ## The pieces of the generated declaration -/

/-- A printed length `${num}px` or `${num}rem`. -/
structure Length where
  num : ℚ
  unit : UnitMode
  deriving DecidableEq

/-- The characters of a length. -/
def Length.text (l : Length) : String := numStr l.num ++ l.unit.label

/-- The CSS value of a length in pixels, with `1rem = 16px`. -/
def Length.px (l : Length) : ℚ :=
  match l.unit with
  | .rem => l.num * baseRem
  | .px => l.num

/-- The operator printed between the intercept and the `vw` term. -/
inductive Sign where
  | plus
  | minus
  deriving DecidableEq, Repr

/-- The character of the operator. -/
def Sign.text : Sign → String
  | .plus => "+"
  | .minus => "-"

/-- The template `${interceptStr} ${sign} ${slopeVw}vw`. -/
structure ValStr where
  interceptStr : Length
  sign : Sign
  slopeVw : ℚ
  deriving DecidableEq

/-- The characters of the interpolated expression. -/
def ValStr.text (e : ValStr) : String :=
  e.interceptStr.text ++ " " ++ e.sign.text ++ " " ++ numStr e.slopeVw ++ "vw"

/-- The CSS reading of `A <op> B vw` at viewport width `w` pixels, in pixels:
`1vw` is `w / 100` pixels and the operator applies to the `vw` term. -/
def ValStr.px (e : ValStr) (w : ℚ) : ℚ :=
  match e.sign with
  | .plus => e.interceptStr.px + e.slopeVw * (w / 100)
  | .minus => e.interceptStr.px - e.slopeVw * (w / 100)

/-- The coefficient of `vw` in the CSS reading of the expression. -/
def ValStr.vwCoeff (e : ValStr) : ℚ :=
  match e.sign with
  | .plus => e.slopeVw
  | .minus => -e.slopeVw

/-- The constant term of the CSS reading, in the display unit: the value of the
expression at viewport width `0`. -/
def ValStr.constTerm (e : ValStr) : ℚ := e.interceptStr.num

/-- The declaration `clampFunc`: either `${prop}: ${minStr};` or
`${prop}: clamp(${realMin}, ${valStr}, ${realMax});`. -/
inductive Decl where
  | flat (prop : String) (minStr : Length)
  | clamp (prop : String) (realMin : Length) (valStr : ValStr) (realMax : Length)
  deriving DecidableEq

/-- The characters of the declaration. -/
def Decl.text : Decl → String
  | .flat prop minStr => prop ++ ": " ++ minStr.text ++ ";"
  | .clamp prop realMin valStr realMax =>
    prop ++ ": clamp(" ++ realMin.text ++ ", " ++ valStr.text ++ ", " ++ realMax.text ++ ");"

/-! ## The form -/

/-- The values of the input elements. A numeric field holds the result of
`parseFloat`, `none` standing for `NaN` (empty or non-numeric text). -/
structure Form where
  minWidth : Option ℚ
  maxWidth : Option ℚ
  minVal : Option ℚ
  maxVal : Option ℚ
  property : String

/-- The coercion `parseFloat(..) || 0`. -/
def numOr0 (v : Option ℚ) : ℚ := v.getD 0

/-- The local `minW` of `calculate`. -/
def Form.minW (f : Form) : ℚ := numOr0 f.minWidth

/-- The local `maxW` of `calculate`. -/
def Form.maxW (f : Form) : ℚ := numOr0 f.maxWidth

/-- The local `minV` of `calculate`. -/
def Form.minV (f : Form) : ℚ := numOr0 f.minVal

/-- The local `maxV` of `calculate`. -/
def Form.maxV (f : Form) : ℚ := numOr0 f.maxVal

/-- The local `minVPx`: the minimum value converted to pixels. -/
def minVPx (unit : UnitMode) (f : Form) : ℚ :=
  match unit with
  | .rem => f.minV * baseRem
  | .px => f.minV

/-- The local `maxVPx`: the maximum value converted to pixels. -/
def maxVPx (unit : UnitMode) (f : Form) : ℚ :=
  match unit with
  | .rem => f.maxV * baseRem
  | .px => f.maxV

/-- The local `slope`. -/
def slope (unit : UnitMode) (f : Form) : ℚ :=
  (maxVPx unit f - minVPx unit f) / (f.maxW - f.minW)

/-- The local `yIntercept`. -/
def yIntercept (unit : UnitMode) (f : Form) : ℚ :=
  minVPx unit f - slope unit f * f.minW

/-- The local `sign`: `yIntercept >= 0 ? '+' : '-'`. -/
def sign (unit : UnitMode) (f : Form) : Sign :=
  if yIntercept unit f ≥ 0 then .plus else .minus

/-- The local `absIntercept`. -/
def absIntercept (unit : UnitMode) (f : Form) : ℚ := |yIntercept unit f|

/-- The local `interceptStr`. -/
def interceptStr (unit : UnitMode) (f : Form) : Length :=
  match unit with
  | .rem => ⟨round (absIntercept unit f / baseRem), .rem⟩
  | .px => ⟨round (absIntercept unit f), .px⟩

/-- The local `minStr`. -/
def minStr (unit : UnitMode) (f : Form) : Length := ⟨f.minV, unit⟩

/-- The local `maxStr`. -/
def maxStr (unit : UnitMode) (f : Form) : Length := ⟨f.maxV, unit⟩

/-- The local `slopeVw`. -/
def slopeVw (unit : UnitMode) (f : Form) : ℚ := round (slope unit f * 100)

/-- The local `valStr`. -/
def valStr (unit : UnitMode) (f : Form) : ValStr :=
  ⟨interceptStr unit f, sign unit f, slopeVw unit f⟩

/-- The local `realMin`. -/
def realMin (unit : UnitMode) (f : Form) : Length :=
  if minVPx unit f < maxVPx unit f then minStr unit f else maxStr unit f

/-- The local `realMax`. -/
def realMax (unit : UnitMode) (f : Form) : Length :=
  if minVPx unit f < maxVPx unit f then maxStr unit f else minStr unit f

/-- The local `clampFunc`, built once the validation has passed. -/
def clampFunc (unit : UnitMode) (f : Form) : Decl :=
  if slope unit f = 0 then .flat f.property (minStr unit f)
  else .clamp f.property (realMin unit f) (valStr unit f) (realMax unit f)

/-! ## Vocabulary of the statements -/

/-- The preview element `#targetElement`: its class name, its content
(`innerHTML` / `textContent`) and its inline style, as the list of the
assignments made to `target.style`, in order. -/
structure Target where
  className : String
  content : String
  style : List (String × String)
  deriving DecidableEq

/-- The piece `cssLine.split(':')[1]`: what stands between the first colon and
the next one (or the end); `none` when the line has no colon, in which case the
array element is `undefined`. -/
def splitSecond : List Char → Option (List Char)
  | [] => none
  | c :: cs => if c = ':' then some (cs.takeWhile (fun d => d != ':')) else splitSecond cs

/-- White space as `String.prototype.trim` understands it. -/
def isJsSpace (c : Char) : Bool :=
  c.val ∈ [0x09, 0x0A, 0x0B, 0x0C, 0x0D, 0x20, 0xA0, 0x1680, 0x2000, 0x2001, 0x2002, 0x2003,
    0x2004, 0x2005, 0x2006, 0x2007, 0x2008, 0x2009, 0x200A, 0x2028, 0x2029, 0x202F, 0x205F,
    0x3000, 0xFEFF]

/-- The method `trim()`. -/
def trim (cs : List Char) : List Char :=
  ((cs.dropWhile isJsSpace).reverse.dropWhile isJsSpace).reverse

/-- The local `valueOnly` of `updatePreviewContent`:
`cssLine.split(':')[1].replace(';', '').trim()`; `none` when `split(':')[1]` is
`undefined` and the call of `replace` throws a `TypeError`. -/
def valueOnly (cssLine : String) : Option String :=
  (splitSecond cssLine.toList).map (fun s => String.mk (trim (s.erase ';')))

/-- The markup written in font-size mode. -/
def textMarkup : String :=
  "\n            <h1 style=\"margin:0; font-size: inherit;\">Titre Fluide</h1>\n            <p style=\"font-size: 0.5em; margin-top: 10px;\">Sous-titre (0.5em)</p>\n        "

/-- The markup written in gap mode. -/
def gapMarkup : String :=
  "\n            <div class=\"gap-item\">1</div>\n            <div class=\"gap-item\">2</div>\n            <div class=\"gap-item\">3</div>\n            <div class=\"gap-item\">4</div>\n        "

/-- The element after the reset and the branch for `prop` have run. -/
def restyle (prop valueOnly : String) : Target :=
  if prop = "font-size" then
    ⟨"mode-text", textMarkup, [("font-size", valueOnly)]⟩
  else if prop = "width" ∨ prop = "height" then
    if prop = "width" then ⟨"mode-box", "Box", [("height", "150px"), ("width", valueOnly)]⟩
    else ⟨"mode-box", "Box", [("width", "150px"), ("height", valueOnly)]⟩
  else if prop = "padding" then
    ⟨"mode-padding", "<div class=\"padding-inner\">Content</div>", [("padding", valueOnly)]⟩
  else if prop = "gap" then
    ⟨"mode-gap", gapMarkup, [("gap", valueOnly)]⟩
  else
    ⟨"", "", []⟩

/-- The function `updatePreviewContent(iframe, prop, cssLine)`. The iframe is
given by its target element, `none` when the document or the element is missing
(the function then returns at once). The result is `none` when a `TypeError` is
thrown, which happens before the element is touched. -/
def updatePreviewContent (iframe : Option Target) (prop cssLine : String) :
    Option (Option Target) :=
  match iframe with
  | none => some none
  | some _ =>
    match valueOnly cssLine with
    | none => none
    | some v => some (some (restyle prop v))

/-! ## `calculate` -/

/-- The part of the page that `calculate` writes: the text of the output element
and the target element of the preview iframe. -/
structure Dom where
  output : String
  iframeMax : Option Target
  deriving DecidableEq

/-- The message shown for an invalid range. -/
def invalidRangeText : String := "/* La largeur min doit être inférieure à la max */"

/-- The function `calculate()`, reading the unit mode and the form and writing
the page. -/
def calculate (unit : UnitMode) (f : Form) (dom : Dom) : Dom :=
  if f.minW ≥ f.maxW ∨ f.minW = 0 then
    { dom with output := invalidRangeText }
  else
    let dom1 : Dom := { dom with output := (clampFunc unit f).text }
    match updatePreviewContent dom1.iframeMax f.property (clampFunc unit f).text with
    | some fr => { dom1 with iframeMax := fr }
    | none => dom1



/-! ## Sample requests -/

/-- The request of the worked example: widths 320 to 1280, values 16 to 48,
property `font-size`. -/
def specExample : Form := ⟨some 320, some 1280, some 16, some 48, "font-size"⟩

/-- The same line entered in rem: values 1 to 3. -/
def remExample : Form := ⟨some 320, some 1280, some 1, some 3, "font-size"⟩

/-- A request whose line crosses zero before the minimum width: values 1 to 48,
so that the intercept is negative. -/
def steepExample : Form := ⟨some 320, some 1280, some 1, some 48, "font-size"⟩

/-- A request whose minimum width is zero. -/
def zeroWidthExample : Form := ⟨some 0, some 1280, some 16, some 48, "font-size"⟩

/-- A page whose preview element carries an earlier rendering. -/
def samplePage : Dom := ⟨"", some ⟨"mode-box", "Box", [("height", "150px"), ("width", "10px")]⟩⟩

/-! ## Rounding -/

theorem calculate_valid (unit : UnitMode) (f : Form) (dom : Dom)
    (hlt : f.minW < f.maxW) (h0 : f.minW ≠ 0) :
    (calculate unit f dom).output = (clampFunc unit f).text := by
  have hv : ¬ (f.minW ≥ f.maxW ∨ f.minW = 0) := by
    rintro (h | h)
    · exact absurd hlt (not_lt.mpr h)
    · exact h0 h
  unfold calculate
  rw [if_neg hv]
  dsimp only
  split <;> rfl

theorem slope_mul_minW (unit : UnitMode) (f : Form) :
    slope unit f * f.minW + yIntercept unit f = minVPx unit f := by
  unfold yIntercept
  ring

theorem slope_mul_maxW (unit : UnitMode) (f : Form) (hlt : f.minW < f.maxW) :
    slope unit f * f.maxW + yIntercept unit f = maxVPx unit f := by
  have hd : f.maxW - f.minW ≠ 0 := sub_ne_zero.mpr (ne_of_gt hlt)
  unfold yIntercept slope
  field_simp
  ring

theorem decl_text_ends (d : Decl) : ∃ s : String, d.text = s ++ ";" := by
  cases d with
  | flat p m => exact ⟨_, rfl⟩
  | clamp p lo e hi =>
    refine ⟨p ++ ": clamp(" ++ lo.text ++ ", " ++ e.text ++ ", " ++ hi.text ++ ")", ?_⟩
    show _ ++ ");" = _
    rw [String.append_assoc _ ")" ";"]
    rfl

theorem decl_text_ne_invalid (d : Decl) : d.text ≠ invalidRangeText := by
  obtain ⟨s, hs⟩ := decl_text_ends d
  intro h
  rw [hs] at h
  have h2 := congrArg (fun t => t.data.getLast?) h
  simp only [String.data_append] at h2
  rw [List.getLast?_concat] at h2
  exact absurd h2 (by decide)

theorem splitSecond_colon (a rest : List Char) :
    (splitSecond (a ++ ':' :: rest)).isSome = true := by
  induction a with
  | nil => simp [splitSecond]
  | cons c cs ih =>
    by_cases hc : c = ':'
    · simp [splitSecond, hc]
    · simpa [splitSecond, hc] using ih

theorem valueOnly_decl_line (p v : String) :
    ∃ w, valueOnly (p ++ ": " ++ v ++ ";") = some w := by
  have e : (p ++ ": " ++ v ++ ";").toList = p.data ++ ':' :: ' ' :: (v.data ++ [';']) := by
    simp [String.toList, String.data_append]
  obtain ⟨u, hu⟩ := Option.isSome_iff_exists.mp
    (splitSecond_colon p.data (' ' :: (v.data ++ [';'])))
  exact ⟨String.mk (trim (u.erase ';')), by unfold valueOnly; rw [e, hu]; rfl⟩

theorem updatePreviewContent_present (t : Target) (prop cssLine w : String)
    (h : valueOnly cssLine = some w) :
    updatePreviewContent (some t) prop cssLine = some (some (restyle prop w)) := by
  unfold updatePreviewContent
  simp only [h]

/-- C8: for a request with `minWidth < maxWidth`, in exact arithmetic, `slope`
and `yIntercept` define the line through `(minWidth, minValuePx)` and
`(maxWidth, maxValuePx)`, the pixel values being the values times 16 in rem mode
and the values themselves in px mode. -/
theorem line_through_endpoints (unit : UnitMode) (f : Form) (hlt : f.minW < f.maxW) :
    slope unit f * f.minW + yIntercept unit f = minVPx unit f ∧
    slope unit f * f.maxW + yIntercept unit f = maxVPx unit f ∧
    minVPx unit f = (match unit with | .rem => f.minV * 16 | .px => f.minV) ∧
    maxVPx unit f = (match unit with | .rem => f.maxV * 16 | .px => f.maxV) := by
  refine ⟨slope_mul_minW unit f, slope_mul_maxW unit f hlt, ?_, ?_⟩
  · cases unit <;> rfl
  · cases unit <;> rfl

/-- The endpoints of the worked example, entered in rem, lie on the computed line. -/
theorem line_through_endpoints_witness :
    remExample.minW < remExample.maxW ∧
    slope .rem remExample * remExample.minW + yIntercept .rem remExample = 16 ∧
    slope .rem remExample * remExample.maxW + yIntercept .rem remExample = 48 :=
  have h := line_through_endpoints .rem remExample (by decide!)
  ⟨by decide!, h.1.trans (by decide!), h.2.1.trans (by decide!)⟩

/-- C2, as amended: for widths 320 to 1280, values 16 to 48, unit px and property
`font-size`, `calculate` writes exactly
`font-size: clamp(16px, 5.3333px + 3.3333vw, 48px);` to the output. -/
theorem worked_example_output (dom : Dom) :
    (calculate .px specExample dom).output =
      "font-size: clamp(16px, 5.3333px + 3.3333vw, 48px);" := by
  rw [calculate_valid .px specExample dom (by decide!) (by decide!)]
  decide!

/-- C2 fails as stated: the text written for the worked example is not
`font-size: clamp(16px, 13.3333px + 3.3333vw, 48px);`; the intercept of the line
through (320, 16) and (1280, 48) is 16/3, printed as `5.3333`. -/
theorem worked_example_counterexample :
    (calculate .px specExample samplePage).output ≠
      "font-size: clamp(16px, 13.3333px + 3.3333vw, 48px);" ∧
    yIntercept .px specExample = 16 / 3 ∧
    (interceptStr .px specExample).num = 53333 / 10000 := by
  decide!

/-! ## The bounds of `clamp()` -/

/-- C9, the code at a request with a negative intercept (widths 320 to 1280,
values 1 to 48, px): the line has intercept `-44/3` and slope `47/960`, but the
text printed is `14.6667px - 4.8958vw`, whose constant term is `+14.6667` and
whose `vw` coefficient is `-4.8958`; at width 320 it is worth `-0.99986` px
where the line is worth 1 px. -/
theorem negative_intercept_expression :
    (steepExample.minW < steepExample.maxW ∧ steepExample.minW ≠ 0) ∧
    yIntercept .px steepExample = -44 / 3 ∧
    slope .px steepExample = 47 / 960 ∧
    (calculate .px steepExample samplePage).output =
      "font-size: clamp(1px, 14.6667px - 4.8958vw, 48px);" ∧
    valStr .px steepExample = ⟨⟨146667 / 10000, .px⟩, .minus, 48958 / 10000⟩ ∧
    (valStr .px steepExample).constTerm = 146667 / 10000 ∧
    -round (absIntercept .px steepExample) = -146667 / 10000 ∧
    (valStr .px steepExample).constTerm ≠ -round (absIntercept .px steepExample) ∧
    (valStr .px steepExample).vwCoeff = -48958 / 10000 ∧
    round (100 * slope .px steepExample) = 48958 / 10000 ∧
    (valStr .px steepExample).vwCoeff ≠ round (100 * slope .px steepExample) ∧
    (valStr .px steepExample).px 320 = -99986 / 100000 ∧
    slope .px steepExample * 320 + yIntercept .px steepExample = 1 := by
  decide!

/-! ## The invalid range -/

/-- C3: `calculate` ends in the invalid-range outcome (the output text is the
fixed message and the preview element is the one found) exactly when
`minWidth >= maxWidth` or `minWidth = 0`; the values, the unit, the property and
the page play no part in the decision, and the outcome then is the page found
with only its output text replaced. -/
theorem invalid_range_iff (unit : UnitMode) (f : Form) (dom : Dom) :
    (((calculate unit f dom).output = invalidRangeText ∧
        (calculate unit f dom).iframeMax = dom.iframeMax) ↔
      (f.minW ≥ f.maxW ∨ f.minW = 0)) ∧
    ((f.minW ≥ f.maxW ∨ f.minW = 0) →
      calculate unit f dom = { dom with output := invalidRangeText }) ∧
    (¬ (f.minW ≥ f.maxW ∨ f.minW = 0) →
      (calculate unit f dom).output = (clampFunc unit f).text ∧
      (calculate unit f dom).output ≠ invalidRangeText) := by
  have hinv : (f.minW ≥ f.maxW ∨ f.minW = 0) →
      calculate unit f dom = { dom with output := invalidRangeText } := by
    intro h
    unfold calculate
    rw [if_pos h]
  have hval : ¬ (f.minW ≥ f.maxW ∨ f.minW = 0) →
      (calculate unit f dom).output = (clampFunc unit f).text ∧
      (calculate unit f dom).output ≠ invalidRangeText := by
    intro h
    have hlt : f.minW < f.maxW := not_le.mp (fun h2 => h (Or.inl h2))
    have h0 : f.minW ≠ 0 := fun h2 => h (Or.inr h2)
    have e := calculate_valid unit f dom hlt h0
    exact ⟨e, by rw [e]; exact decl_text_ne_invalid _⟩
  refine ⟨⟨?_, ?_⟩, hinv, hval⟩
  · rintro ⟨h1, _⟩
    by_contra hn
    exact (hval hn).2 h1
  · intro h
    rw [hinv h]
    exact ⟨rfl, rfl⟩

/-- With minimum width 0 and maximum width 1280 the output is the message and
the preview element is untouched. -/
theorem invalid_range_iff_witness :
    (zeroWidthExample.minW ≥ zeroWidthExample.maxW ∨ zeroWidthExample.minW = 0) ∧
    calculate .px zeroWidthExample samplePage =
      ⟨"/* La largeur min doit être inférieure à la max */", samplePage.iframeMax⟩ ∧
    ¬ (specExample.minW ≥ specExample.maxW ∨ specExample.minW = 0) ∧
    (calculate .px specExample samplePage).output ≠ invalidRangeText :=
  ⟨by decide!,
   (invalid_range_iff .px zeroWidthExample samplePage).2.1 (by decide!),
   by decide!,
   ((invalid_range_iff .px specExample samplePage).2.2 (by decide!)).2⟩

/-! ## The flat declaration -/

/-- C7: `updatePreviewContent` is a full re-render of the preview element: for a
declaration line of the form `<property>: <value>;`, any property name and any
two prior states of the element, the call succeeds and yields the same state,
and calling it again on that state changes nothing. -/
theorem preview_rerender_idempotent (t₁ t₂ : Target) (prop p v : String) :
    ∃ t : Target,
      updatePreviewContent (some t₁) prop (p ++ ": " ++ v ++ ";") = some (some t) ∧
      updatePreviewContent (some t₂) prop (p ++ ": " ++ v ++ ";") = some (some t) ∧
      updatePreviewContent (some t) prop (p ++ ": " ++ v ++ ";") = some (some t) := by
  obtain ⟨w, hw⟩ := valueOnly_decl_line p v
  exact ⟨restyle prop w, updatePreviewContent_present t₁ prop _ w hw,
    updatePreviewContent_present t₂ prop _ w hw, updatePreviewContent_present _ prop _ w hw⟩

end ClampFluide
